import Mathlib

/-!
Shallow embedding of `src/useBluetoothClassic.ts` (first hook variant, the one
with integrated permission gating): the hook's React state becomes an explicit
`BTState` record, the `react-native-bluetooth-classic` adapter and the Android
permission dialog become oracles (`Adapter`, `Env`) fixing the result of each
external call, and every operation is a state-passing function that also emits
the list of adapter calls it made, so that claims about call order and about
"no adapter call made" are statable.  JavaScript exceptions become
`Except String` values carrying the `Error.message` string; `try/catch/finally`
blocks are translated branch by branch.
-/

/-- The message kinds of the hook: `type MessageType = 'sent' | 'received' | 'system'`. -/
inductive MessageType
  | sent
  | received
  | system
deriving DecidableEq, Repr

/-- `interface Message { type; content; timestamp }` (timestamp is the ISO string
`new Date().toISOString()`, supplied here by the environment). -/
structure Message where
  type : MessageType
  content : String
  timestamp : String
deriving DecidableEq, Repr

/-- A `BluetoothDevice` as the hook uses it: its `id` and its (possibly absent)
display `name`.  Only these two fields are ever read by the hook. -/
structure Device where
  id : String
  name : Option String
deriving DecidableEq, Repr

/-- The React state of the hook: the eight `useState` cells declared at the top
of `useBluetoothClassic`. -/
structure BTState where
  connectedDevice : Option Device
  isScanning : Bool
  isConnecting : Bool
  isPairing : Bool
  messages : List Message
  error : Option String
  mp4Device : Option Device
  permissionsGranted : Bool
deriving DecidableEq, Repr

/-- The initial state of the hook: every `useState` initializer
(`null`, `false`, `[]`, `null`, `null`, `false`). -/
def initialState : BTState :=
  { connectedDevice := none
    isScanning := false
    isConnecting := false
    isPairing := false
    messages := []
    error := none
    mp4Device := none
    permissionsGranted := false }

/-- One call into the `RNBluetoothClassic` adapter or a connected device handle.
Permission-dialog requests are deliberately not adapter calls. -/
inductive Call
  | getBondedDevices
  | requestBluetoothEnabled
  | startDiscovery
  | pairDevice (id : String)
  | connectToDevice (id : String)
  | isConnected (id : String)
  | write (id : String) (data : String)
  | deviceDisconnect (id : String)
deriving DecidableEq, Repr

/-- Oracle fixing the outcome of every adapter / device-handle call:
`.ok` is a resolved promise, `.error e` a rejection whose `Error.message` is `e`. -/
structure Adapter where
  getBondedDevices : Except String (List Device)
  requestBluetoothEnabled : Except String Bool
  startDiscovery : Except String (List Device)
  pairDevice : String → Except String Device
  connectToDevice : String → Except String Device
  isConnected : String → Except String Bool
  write : String → String → Except String Unit
  deviceDisconnect : String → Except String Unit

/-- Oracle for the platform and the OS permission dialogs used by
`requestBluetoothPermissions`, plus the clock used for message timestamps.
`requestFineLocation` is the result of the single
`PermissionsAndroid.request(ACCESS_FINE_LOCATION)` (`true` iff `GRANTED`);
`requestMultiple` the per-capability grants `(BLUETOOTH_SCAN, BLUETOOTH_CONNECT,
ACCESS_FINE_LOCATION)` of `PermissionsAndroid.requestMultiple`. -/
structure Env where
  osIsAndroid : Bool
  apiLevel : Nat
  requestFineLocation : Except String Bool
  requestMultiple : Except String (Bool × Bool × Bool)
  now : String

/-- The JavaScript prefix test `device.name && device.name.startsWith('MP4')`:
an absent or empty name is falsy, otherwise the name must start with `"MP4"`. -/
def matchesMP4 (d : Device) : Bool :=
  match d.name with
  | none => false
  | some n => !n.isEmpty && "MP4".data.isPrefixOf n.data

/-- What a JS template literal prints for `device.name`:
the name itself, or `"undefined"` when absent. -/
def displayName (d : Device) : String :=
  match d.name with
  | some n => n
  | none => "undefined"

/-- `addMessage(type, content)`: appends one message with a generated
timestamp to the end of the log (`setMessages(prev => [...prev, m])`). -/
def addMessage (type : MessageType) (content : String) (timestamp : String)
    (s : BTState) : BTState :=
  { s with messages := s.messages ++ [⟨type, content, timestamp⟩] }

/-- `clearMessages()`: `setMessages([])`. -/
def clearMessages (s : BTState) : BTState :=
  { s with messages := [] }

/-- `requestBluetoothPermissions()`: returns `true` immediately off Android;
below API 31 requests the single fine-location capability; from API 31 on
requests scan, connect and fine location together and succeeds only if all
three are granted, recording an error message otherwise; a thrown dialog error
is caught, clearing the granted flag and recording an error. -/
def requestBluetoothPermissions (env : Env) (s : BTState) : Bool × BTState :=
  if !env.osIsAndroid then (true, s)
  else if env.apiLevel < 31 then
    match env.requestFineLocation with
    | .ok isGranted => (isGranted, { s with permissionsGranted := isGranted })
    | .error _ =>
        (false, { s with permissionsGranted := false,
                         error := some "Error al solicitar permisos" })
  else
    match env.requestMultiple with
    | .ok (scan, conn, loc) =>
        let allGranted := scan && conn && loc
        if allGranted then (true, { s with permissionsGranted := true })
        else
          (false, { s with permissionsGranted := false,
                           error := some "Se requieren permisos de Bluetooth para continuar" })
    | .error _ =>
        (false, { s with permissionsGranted := false,
                         error := some "Error al solicitar permisos" })

/-- The permission gate repeated at the top of `pairDevice`,
`findAndConnectMP4` and `connectToDevice`: if `permissionsGranted` is not yet
set, run `requestBluetoothPermissions` and throw `failMsg` when it denies. -/
def permissionGate (env : Env) (failMsg : String) (s : BTState) :
    Except String Unit × BTState :=
  if !s.permissionsGranted then
    let (granted, s1) := requestBluetoothPermissions env s
    if !granted then (.error failMsg, s1) else (.ok (), s1)
  else (.ok (), s)

/-- `connectToDevice(device)`: gate permissions, set `isConnecting`, clear the
error slot, short-circuit if `device.isConnected()` already reports `true`
(adopt the device, append one system message), otherwise call the adapter's
`connectToDevice` and on success store the handle and append one system
message; any throw is caught into the error slot and rethrown; `isConnecting`
is cleared on every exit path (the `finally`). -/
def connectToDevice (env : Env) (adapter : Adapter) (device : Device)
    (s : BTState) : Except String Device × BTState × List Call :=
  match permissionGate env "Se requieren permisos de Bluetooth para conectar" s with
  | (.error e, s1) =>
      (.error e, { s1 with error := some e, isConnecting := false }, [])
  | (.ok _, s1) =>
    let s2 := { s1 with isConnecting := true, error := none }
    match adapter.isConnected device.id with
    | .error e =>
        (.error e, { s2 with error := some e, isConnecting := false },
          [.isConnected device.id])
    | .ok true =>
        let s3 := addMessage .system ("Ya conectado a " ++ displayName device) env.now
          { s2 with connectedDevice := some device }
        (.ok device, { s3 with isConnecting := false }, [.isConnected device.id])
    | .ok false =>
      match adapter.connectToDevice device.id with
      | .error e =>
          (.error e, { s2 with error := some e, isConnecting := false },
            [.isConnected device.id, .connectToDevice device.id])
      | .ok connected =>
          let s3 := addMessage .system ("Conectado a " ++ displayName device) env.now
            { s2 with connectedDevice := some connected }
          (.ok connected, { s3 with isConnecting := false },
            [.isConnected device.id, .connectToDevice device.id])

/-- `pairDevice(device)`: gate permissions, set `isPairing`, clear the error
slot, call the adapter's `pairDevice`; on success append one system message and
return the bonded descriptor; a throw is caught into the error slot and
rethrown; `isPairing` is cleared on every exit path (the `finally`). -/
def pairDevice (env : Env) (adapter : Adapter) (device : Device)
    (s : BTState) : Except String Device × BTState × List Call :=
  match permissionGate env "Se requieren permisos de Bluetooth para emparejar" s with
  | (.error e, s1) =>
      (.error e, { s1 with error := some e, isPairing := false }, [])
  | (.ok _, s1) =>
    let s2 := { s1 with isPairing := true, error := none }
    match adapter.pairDevice device.id with
    | .error e =>
        (.error e, { s2 with error := some e, isPairing := false },
          [.pairDevice device.id])
    | .ok paired =>
        let s3 := addMessage .system ("Emparejado con " ++ displayName device) env.now s2
        (.ok paired, { s3 with isPairing := false }, [.pairDevice device.id])

/-- `findAndConnectMP4()`: gate permissions, set `isScanning`, clear the error
slot; search the bonded list for the first name starting with `"MP4"` and, if
found, record it and connect; otherwise request the adapter enabled (throwing
if declined), append the "Buscando dispositivo MP4..." system message, run
discovery, throw `TargetNotFound` if no discovered name matches, else record
the target, append the "Emparejando..." system message, pair, then connect;
any throw is caught into the error slot and rethrown unchanged; `isScanning`
is cleared on every exit path (the `finally`). -/
def findAndConnectMP4 (env : Env) (adapter : Adapter) (s : BTState) :
    Except String Device × BTState × List Call :=
  match permissionGate env "Se requieren permisos de Bluetooth para buscar dispositivos" s with
  | (.error e, s1) =>
      (.error e, { s1 with error := some e, isScanning := false }, [])
  | (.ok _, s1) =>
    let s2 := { s1 with isScanning := true, error := none }
    match adapter.getBondedDevices with
    | .error e =>
        (.error e, { s2 with error := some e, isScanning := false },
          [.getBondedDevices])
    | .ok paired =>
      match paired.find? matchesMP4 with
      | some mp4 =>
        let s3 := { s2 with mp4Device := some mp4 }
        match connectToDevice env adapter mp4 s3 with
        | (.error e, s4, t) =>
            (.error e, { s4 with error := some e, isScanning := false },
              .getBondedDevices :: t)
        | (.ok _, s4, t) =>
            (.ok mp4, { s4 with isScanning := false }, .getBondedDevices :: t)
      | none =>
        match adapter.requestBluetoothEnabled with
        | .error e =>
            (.error e, { s2 with error := some e, isScanning := false },
              [.getBondedDevices, .requestBluetoothEnabled])
        | .ok false =>
            (.error "Bluetooth no está habilitado",
              { s2 with error := some "Bluetooth no está habilitado",
                        isScanning := false },
              [.getBondedDevices, .requestBluetoothEnabled])
        | .ok true =>
          let s3 := addMessage .system "Buscando dispositivo MP4..." env.now s2
          match adapter.startDiscovery with
          | .error e =>
              (.error e, { s3 with error := some e, isScanning := false },
                [.getBondedDevices, .requestBluetoothEnabled, .startDiscovery])
          | .ok discovered =>
            match discovered.find? matchesMP4 with
            | none =>
                (.error "No se encontró ningún dispositivo MP4",
                  { s3 with error := some "No se encontró ningún dispositivo MP4",
                            isScanning := false },
                  [.getBondedDevices, .requestBluetoothEnabled, .startDiscovery])
            | some mp4 =>
              let s4 := { s3 with mp4Device := some mp4 }
              let s5 := addMessage .system
                ("Emparejando con " ++ displayName mp4 ++ "...") env.now s4
              match pairDevice env adapter mp4 s5 with
              | (.error e, s6, tp) =>
                  (.error e, { s6 with error := some e, isScanning := false },
                    [.getBondedDevices, .requestBluetoothEnabled, .startDiscovery] ++ tp)
              | (.ok _, s6, tp) =>
                match connectToDevice env adapter mp4 s6 with
                | (.error e, s7, tc) =>
                    (.error e, { s7 with error := some e, isScanning := false },
                      [.getBondedDevices, .requestBluetoothEnabled, .startDiscovery]
                        ++ tp ++ tc)
                | (.ok _, s7, tc) =>
                    (.ok mp4, { s7 with isScanning := false },
                      [.getBondedDevices, .requestBluetoothEnabled, .startDiscovery]
                        ++ tp ++ tc)

/-- `disconnect()`: no-op without a connected device; otherwise call the
handle's `disconnect`, append one system message, clear the session and the
whole log; a throw is caught into the error slot and never rethrown, leaving
session and log as they were. -/
def disconnect (env : Env) (adapter : Adapter) (s : BTState) :
    BTState × List Call :=
  match s.connectedDevice with
  | none => (s, [])
  | some device =>
    match adapter.deviceDisconnect device.id with
    | .error e => ({ s with error := some e }, [.deviceDisconnect device.id])
    | .ok _ =>
        let s1 := addMessage .system ("Desconectado de " ++ displayName device)
          env.now s
        ({ s1 with connectedDevice := none, messages := [] },
          [.deviceDisconnect device.id])

/-- `sendData(data)`: throws `NoActiveConnection` without a session (caught:
error recorded, `false` returned, nothing appended); otherwise clears the
error slot, writes through the handle, and on success appends one `sent`
message and returns `true`; a write rejection is caught into the error slot
and `false` is returned. -/
def sendData (env : Env) (adapter : Adapter) (data : String) (s : BTState) :
    Bool × BTState × List Call :=
  match s.connectedDevice with
  | none =>
      (false, { s with error := some "No hay dispositivo conectado" }, [])
  | some device =>
    let s1 := { s with error := none }
    match adapter.write device.id data with
    | .error e => (false, { s1 with error := some e }, [.write device.id data])
    | .ok _ =>
        (true, addMessage .sent data env.now s1, [.write device.id data])

/-! Concrete fixtures used to exhibit witnesses and counterexamples. -/

/-- Target device bonded under the name `"MP4-Player-1"`. -/
def devMP4 : Device := ⟨"00:11:22:33", some "MP4-Player-1"⟩

/-- A bonded device whose name does not match the prefix. -/
def devOther : Device := ⟨"44:55:66:77", some "Speaker"⟩

/-- A device discovered under the name `"MP4-X"`. -/
def devMP4X : Device := ⟨"88:99:AA:BB", some "MP4-X"⟩

/-- Android 13 environment that grants all three capabilities. -/
def grantedEnv : Env :=
  ⟨true, 33, .ok true, .ok (true, true, true), "2026-10-11T00:00:00.000Z"⟩

/-- Android 13 environment with a partial grant: scan and connect granted,
fine location denied. -/
def partialGrantEnv : Env :=
  ⟨true, 33, .ok true, .ok (true, true, false), "2026-10-11T00:00:00.000Z"⟩

/-- Hook state after a successful permission request. -/
def grantedState : BTState := { initialState with permissionsGranted := true }

/-- Adapter whose bonded list already contains the target; connecting succeeds. -/
def bondedAdapter : Adapter :=
  { getBondedDevices := .ok [devOther, devMP4]
    requestBluetoothEnabled := .ok true
    startDiscovery := .ok []
    pairDevice := fun i => .ok ⟨i, some "MP4-Player-1"⟩
    connectToDevice := fun _ => .ok devMP4
    isConnected := fun _ => .ok false
    write := fun _ _ => .ok ()
    deviceDisconnect := fun _ => .ok () }

/-- Adapter with no bonded match: discovery finds `devMP4X`, pairing and
connecting succeed. -/
def discoveryAdapter : Adapter :=
  { bondedAdapter with
    getBondedDevices := .ok [devOther]
    startDiscovery := .ok [devMP4X]
    pairDevice := fun _ => .ok devMP4X
    connectToDevice := fun _ => .ok devMP4X }

/-- Adapter where neither the bonded list nor discovery yields any match. -/
def emptyAdapter : Adapter :=
  { bondedAdapter with getBondedDevices := .ok [devOther], startDiscovery := .ok [] }

/-- Adapter whose bonded-device query rejects. -/
def bondedErrAdapter : Adapter :=
  { bondedAdapter with getBondedDevices := .error "E1" }

/-- Adapter with no bonded match whose enable request rejects. -/
def enableErrAdapter : Adapter :=
  { emptyAdapter with requestBluetoothEnabled := .error "E2" }

/-- Adapter with no bonded match whose enable request is declined. -/
def enableDeclinedAdapter : Adapter :=
  { emptyAdapter with requestBluetoothEnabled := .ok false }

/-- Adapter with no bonded match whose discovery scan rejects. -/
def discoveryErrAdapter : Adapter :=
  { emptyAdapter with startDiscovery := .error "E4" }

/-- Adapter that discovers the target but rejects the pairing handshake. -/
def pairErrAdapter : Adapter :=
  { discoveryAdapter with pairDevice := fun _ => .error "E6" }

/-- Adapter with a bonded target whose socket connect rejects. -/
def connectErrAdapter : Adapter :=
  { bondedAdapter with connectToDevice := fun _ => .error "E7" }

/-- Adapter with a bonded target whose connectedness probe rejects. -/
def probeErrAdapter : Adapter :=
  { bondedAdapter with isConnected := fun _ => .error "E8" }

/-- Adapter that discovers and pairs the target but whose connectedness probe
then rejects. -/
def pairedProbeErrAdapter : Adapter :=
  { discoveryAdapter with isConnected := fun _ => .error "E9" }

/-- Adapter that discovers and pairs the target but whose socket connect then
rejects. -/
def pairedConnectErrAdapter : Adapter :=
  { discoveryAdapter with connectToDevice := fun _ => .error "E10" }

/-- C5: connecting to a device that already reports itself connected
short-circuits: the device is adopted as the session, exactly one `system`
message is appended, the call returns it, and the only adapter call made is
the `isConnected` probe — zero adapter `connectToDevice` calls. -/
theorem connect_already_connected (env : Env) (adapter : Adapter) (d : Device)
    (s : BTState) (hperm : s.permissionsGranted = true)
    (hic : adapter.isConnected d.id = .ok true) :
    connectToDevice env adapter d s =
      (.ok d,
       { s with isConnecting := false, error := none, connectedDevice := some d,
                messages := s.messages ++
                  [⟨.system, "Ya conectado a " ++ displayName d, env.now⟩] },
       [.isConnected d.id]) := by
  simp [connectToDevice, permissionGate, addMessage, hperm, hic]

/-- C5 witness: the short-circuit evaluated on a concrete already-connected
device. -/
theorem connect_already_connected_witness :
    connectToDevice grantedEnv { bondedAdapter with isConnected := fun _ => .ok true }
      devMP4 grantedState =
      (.ok devMP4,
       { grantedState with
          isConnecting := false, error := none,
          connectedDevice := some devMP4,
          messages := [⟨.system, "Ya conectado a " ++ displayName devMP4,
            grantedEnv.now⟩] },
       [.isConnected devMP4.id]) :=
  connect_already_connected grantedEnv
    { bondedAdapter with isConnected := fun _ => .ok true } devMP4 grantedState
    rfl rfl

/-- C6: `disconnect` is a no-op without a session; with one it issues the
underlying disconnect, clears the session and the entire message log; its
return type (a plain state, no `Except`) reflects that it never rethrows, and
even when the underlying teardown fails it returns normally with the error
recorded. -/
theorem disconnect_spec (env : Env) (a1 a2 a3 : Adapter) (s1 s2 s3 : BTState)
    (d2 d3 : Device) (e : String)
    (h1 : s1.connectedDevice = none)
    (h2 : s2.connectedDevice = some d2)
    (hok : a2.deviceDisconnect d2.id = .ok ())
    (h3 : s3.connectedDevice = some d3)
    (herr : a3.deviceDisconnect d3.id = .error e) :
    disconnect env a1 s1 = (s1, []) ∧
    disconnect env a2 s2 =
      ({ s2 with connectedDevice := none, messages := [] },
       [.deviceDisconnect d2.id]) ∧
    disconnect env a3 s3 =
      ({ s3 with error := some e }, [.deviceDisconnect d3.id]) := by
  refine ⟨?_, ?_, ?_⟩
  · simp [disconnect, h1]
  · simp [disconnect, h2, hok, addMessage]
  · simp [disconnect, h3, herr]

/-- C6 witness: the three disconnect scenarios on concrete states. -/
theorem disconnect_spec_witness :
    disconnect grantedEnv bondedAdapter initialState = (initialState, []) ∧
    disconnect grantedEnv bondedAdapter
        { grantedState with
           connectedDevice := some devMP4,
           messages := [⟨.sent, "hello", "t"⟩] } =
      ({ { grantedState with
            connectedDevice := some devMP4,
            messages := [⟨.sent, "hello", "t"⟩] } with
          connectedDevice := none, messages := [] },
       [.deviceDisconnect devMP4.id]) ∧
    disconnect grantedEnv
        { bondedAdapter with deviceDisconnect := fun _ => .error "boom" }
        { grantedState with connectedDevice := some devMP4 } =
      ({ { grantedState with connectedDevice := some devMP4 } with
          error := some "boom" },
       [.deviceDisconnect devMP4.id]) :=
  disconnect_spec grantedEnv bondedAdapter bondedAdapter
    { bondedAdapter with deviceDisconnect := fun _ => .error "boom" }
    initialState
    { grantedState with
       connectedDevice := some devMP4,
       messages := [⟨.sent, "hello", "t"⟩] }
    { grantedState with connectedDevice := some devMP4 }
    devMP4 devMP4 "boom" rfl rfl rfl rfl rfl

/-- C10: when the underlying handle's disconnect rejects, `disconnect` records
the error into the last-error slot and leaves everything else unchanged — the
session stays set and the log is not cleared. -/
theorem disconnect_failure_preserves_state (env : Env) (adapter : Adapter)
    (s : BTState) (d : Device) (e : String)
    (hd : s.connectedDevice = some d)
    (herr : adapter.deviceDisconnect d.id = .error e) :
    disconnect env adapter s =
      ({ s with error := some e }, [.deviceDisconnect d.id]) := by
  simp [disconnect, hd, herr]

/-- C10 witness: failing teardown on a concrete connected state keeps the
session and the log. -/
theorem disconnect_failure_preserves_state_witness :
    disconnect grantedEnv
        { bondedAdapter with deviceDisconnect := fun _ => .error "EIO" }
        { grantedState with
           connectedDevice := some devMP4,
           messages := [⟨.received, "ping", "t"⟩] } =
      ({ { grantedState with
            connectedDevice := some devMP4,
            messages := [⟨.received, "ping", "t"⟩] } with error := some "EIO" },
       [.deviceDisconnect devMP4.id]) :=
  disconnect_failure_preserves_state grantedEnv
    { bondedAdapter with deviceDisconnect := fun _ => .error "EIO" }
    { grantedState with
       connectedDevice := some devMP4,
       messages := [⟨.received, "ping", "t"⟩] }
    devMP4 "EIO" rfl rfl

/-- C7: `sendData` never throws (its return type is a plain boolean):
without a session it records `NoActiveConnection` and returns `false` with no
message appended and no adapter call; on a write rejection it records the
error and returns `false` with no message appended; on a successful write it
appends exactly one `sent` message and returns `true`. -/
theorem sendData_spec (env : Env) (a1 a2 a3 : Adapter) (s1 s2 s3 : BTState)
    (d2 d3 : Device) (data e : String)
    (h1 : s1.connectedDevice = none)
    (h2 : s2.connectedDevice = some d2)
    (hw2 : a2.write d2.id data = .error e)
    (h3 : s3.connectedDevice = some d3)
    (hw3 : a3.write d3.id data = .ok ()) :
    sendData env a1 data s1 =
      (false, { s1 with error := some "No hay dispositivo conectado" }, []) ∧
    sendData env a2 data s2 =
      (false, { s2 with error := some e }, [.write d2.id data]) ∧
    sendData env a3 data s3 =
      (true, { s3 with
                error := none,
                messages := s3.messages ++ [⟨.sent, data, env.now⟩] },
       [.write d3.id data]) := by
  refine ⟨?_, ?_, ?_⟩
  · simp [sendData, h1]
  · simp [sendData, h2, hw2]
  · simp [sendData, h3, hw3, addMessage]

/-- C7 witness: the three send scenarios on concrete states. -/
theorem sendData_spec_witness :
    sendData grantedEnv bondedAdapter "CMD" initialState =
      (false, { initialState with error := some "No hay dispositivo conectado" },
       []) ∧
    sendData grantedEnv { bondedAdapter with write := fun _ _ => .error "EPIPE" }
        "CMD" { grantedState with connectedDevice := some devMP4 } =
      (false, { { grantedState with connectedDevice := some devMP4 } with
                 error := some "EPIPE" },
       [.write devMP4.id "CMD"]) ∧
    sendData grantedEnv bondedAdapter "CMD"
        { grantedState with connectedDevice := some devMP4 } =
      (true, { { grantedState with connectedDevice := some devMP4 } with
                error := none,
                messages := [⟨.sent, "CMD", grantedEnv.now⟩] },
       [.write devMP4.id "CMD"]) :=
  sendData_spec grantedEnv bondedAdapter
    { bondedAdapter with write := fun _ _ => .error "EPIPE" } bondedAdapter
    initialState { grantedState with connectedDevice := some devMP4 }
    { grantedState with connectedDevice := some devMP4 }
    devMP4 devMP4 "CMD" "EPIPE" rfl rfl rfl rfl rfl

/-- C1: when the bonded list contains a matching device, `findAndConnectMP4`
selects the first match in enumeration order (`List.find?`), records it as the
target device, and goes straight to connecting: the full call trace is the
bonded query, the connectedness probe and the connect — no `startDiscovery`
and no `pairDevice` call — ending with a session established and exactly one
`system` message appended. -/
theorem findAndConnect_bonded_match (env : Env) (adapter : Adapter)
    (s : BTState) (l : List Device) (d c : Device)
    (hperm : s.permissionsGranted = true)
    (hb : adapter.getBondedDevices = .ok l)
    (hfind : l.find? matchesMP4 = some d)
    (hic : adapter.isConnected d.id = .ok false)
    (hc : adapter.connectToDevice d.id = .ok c) :
    findAndConnectMP4 env adapter s =
      (.ok d,
       { s with
          isScanning := false, isConnecting := false, error := none,
          mp4Device := some d, connectedDevice := some c,
          messages := s.messages ++
            [⟨.system, "Conectado a " ++ displayName d, env.now⟩] },
       [.getBondedDevices, .isConnected d.id, .connectToDevice d.id]) := by
  simp [findAndConnectMP4, connectToDevice, permissionGate, addMessage,
    hperm, hb, hfind, hic, hc]

/-- C1 witness: a bonded `"MP4-Player-1"` is picked and connected without
discovery or pairing. -/
theorem findAndConnect_bonded_match_witness :
    findAndConnectMP4 grantedEnv bondedAdapter grantedState =
      (.ok devMP4,
       { grantedState with
          isScanning := false, isConnecting := false, error := none,
          mp4Device := some devMP4, connectedDevice := some devMP4,
          messages := [⟨.system, "Conectado a " ++ displayName devMP4,
            grantedEnv.now⟩] },
       [.getBondedDevices, .isConnected devMP4.id,
        .connectToDevice devMP4.id]) :=
  findAndConnect_bonded_match grantedEnv bondedAdapter grantedState
    [devOther, devMP4] devMP4 devMP4 rfl rfl rfl rfl rfl

/-- C2: with no bonded match, adapter enable succeeding and discovery finding
a match, `findAndConnectMP4` performs the bonded query, the enable request,
discovery, pairing, the connectedness probe and the connect in exactly that
order (so enable → discover → pair → connect), appending the searching and
"Emparejando..." `system` messages before the pair call and the
"Emparejado"/"Conectado" `system` messages after the pair and connect
succeed. -/
theorem findAndConnect_discovery_path (env : Env) (adapter : Adapter)
    (s : BTState) (l L : List Device) (d p c : Device)
    (hperm : s.permissionsGranted = true)
    (hb : adapter.getBondedDevices = .ok l)
    (hnl : l.find? matchesMP4 = none)
    (hen : adapter.requestBluetoothEnabled = .ok true)
    (hdisc : adapter.startDiscovery = .ok L)
    (hfind : L.find? matchesMP4 = some d)
    (hp : adapter.pairDevice d.id = .ok p)
    (hic : adapter.isConnected d.id = .ok false)
    (hc : adapter.connectToDevice d.id = .ok c) :
    findAndConnectMP4 env adapter s =
      (.ok d,
       { s with
          isScanning := false, isConnecting := false, isPairing := false,
          error := none, mp4Device := some d, connectedDevice := some c,
          messages := s.messages ++
            [⟨.system, "Buscando dispositivo MP4...", env.now⟩,
             ⟨.system, "Emparejando con " ++ displayName d ++ "...", env.now⟩,
             ⟨.system, "Emparejado con " ++ displayName d, env.now⟩,
             ⟨.system, "Conectado a " ++ displayName d, env.now⟩] },
       [.getBondedDevices, .requestBluetoothEnabled, .startDiscovery,
        .pairDevice d.id, .isConnected d.id, .connectToDevice d.id]) := by
  simp [findAndConnectMP4, connectToDevice, pairDevice, permissionGate,
    addMessage, hperm, hb, hnl, hen, hdisc, hfind, hp, hic, hc]

/-- C2 witness: discovery finds `"MP4-X"`, which is paired then connected, in
the claimed order. -/
theorem findAndConnect_discovery_path_witness :
    findAndConnectMP4 grantedEnv discoveryAdapter grantedState =
      (.ok devMP4X,
       { grantedState with
          isScanning := false, isConnecting := false, isPairing := false,
          error := none, mp4Device := some devMP4X,
          connectedDevice := some devMP4X,
          messages :=
            [⟨.system, "Buscando dispositivo MP4...", grantedEnv.now⟩,
             ⟨.system, "Emparejando con " ++ displayName devMP4X ++ "...",
               grantedEnv.now⟩,
             ⟨.system, "Emparejado con " ++ displayName devMP4X,
               grantedEnv.now⟩,
             ⟨.system, "Conectado a " ++ displayName devMP4X,
               grantedEnv.now⟩] },
       [.getBondedDevices, .requestBluetoothEnabled, .startDiscovery,
        .pairDevice devMP4X.id, .isConnected devMP4X.id,
        .connectToDevice devMP4X.id]) :=
  findAndConnect_discovery_path grantedEnv discoveryAdapter grantedState
    [devOther] [devMP4X] devMP4X devMP4X devMP4X
    rfl rfl rfl rfl rfl rfl rfl rfl rfl

/-- C3: when neither the bonded list nor discovery has a matching name,
`findAndConnectMP4` fails with the `TargetNotFound` error
(`"No se encontró ningún dispositivo MP4"`), and the run ends disconnected:
no session, and all three activity flags off.  Moreover — the
`finally`-equivalent — for every environment, adapter and starting state
whatsoever, the state `findAndConnectMP4` returns has `isScanning = false`. -/
theorem findAndConnect_target_not_found (env : Env) (adapter : Adapter)
    (s : BTState) (l L : List Device)
    (hperm : s.permissionsGranted = true)
    (hconn : s.connectedDevice = none)
    (hic : s.isConnecting = false) (hip : s.isPairing = false)
    (hb : adapter.getBondedDevices = .ok l)
    (hnl : l.find? matchesMP4 = none)
    (hen : adapter.requestBluetoothEnabled = .ok true)
    (hdisc : adapter.startDiscovery = .ok L)
    (hnL : L.find? matchesMP4 = none) :
    ((findAndConnectMP4 env adapter s).1 =
        .error "No se encontró ningún dispositivo MP4" ∧
      (findAndConnectMP4 env adapter s).2.1.connectedDevice = none ∧
      (findAndConnectMP4 env adapter s).2.1.isScanning = false ∧
      (findAndConnectMP4 env adapter s).2.1.isConnecting = false ∧
      (findAndConnectMP4 env adapter s).2.1.isPairing = false) ∧
    ∀ env' adapter' s',
      (findAndConnectMP4 env' adapter' s').2.1.isScanning = false := by
  constructor
  · simp [findAndConnectMP4, permissionGate, addMessage, hperm, hconn, hic,
      hip, hb, hnl, hen, hdisc, hnL]
  · intro env' adapter' s'
    unfold findAndConnectMP4
    repeat' split
    all_goals try simp
    all_goals (split <;> (try split) <;> simp)

/-- C3 witness: an adapter with no matching bonded or discovered device, run
from the freshly granted state. -/
theorem findAndConnect_target_not_found_witness :
    (((findAndConnectMP4 grantedEnv emptyAdapter grantedState).1 =
        .error "No se encontró ningún dispositivo MP4" ∧
      (findAndConnectMP4 grantedEnv emptyAdapter grantedState).2.1.connectedDevice
        = none ∧
      (findAndConnectMP4 grantedEnv emptyAdapter grantedState).2.1.isScanning
        = false ∧
      (findAndConnectMP4 grantedEnv emptyAdapter grantedState).2.1.isConnecting
        = false ∧
      (findAndConnectMP4 grantedEnv emptyAdapter grantedState).2.1.isPairing
        = false) ∧
    ∀ env' adapter' s',
      (findAndConnectMP4 env' adapter' s').2.1.isScanning = false) :=
  findAndConnect_target_not_found grantedEnv emptyAdapter grantedState
    [devOther] [] rfl rfl rfl rfl rfl rfl rfl rfl rfl

/-- C4: a partial grant of the three-capability request makes
`requestBluetoothPermissions` return `false`, and each gated operation
(`pairDevice`, `connectToDevice`, `findAndConnectMP4`) invoked while
`permissionsGranted` is still `false` fails with its permission-denied error
having made no adapter call at all (empty call trace). -/
theorem partial_grant_denies_gated_ops (env : Env) (adapter : Adapter)
    (s : BTState) (d : Device) (a b c : Bool)
    (hos : env.osIsAndroid = true) (hapi : 31 ≤ env.apiLevel)
    (hm : env.requestMultiple = .ok (a, b, c))
    (hpart : (a && b && c) = false)
    (hperm : s.permissionsGranted = false) :
    (requestBluetoothPermissions env s).1 = false ∧
    (pairDevice env adapter d s).1 =
      .error "Se requieren permisos de Bluetooth para emparejar" ∧
    (pairDevice env adapter d s).2.2 = [] ∧
    (connectToDevice env adapter d s).1 =
      .error "Se requieren permisos de Bluetooth para conectar" ∧
    (connectToDevice env adapter d s).2.2 = [] ∧
    (findAndConnectMP4 env adapter s).1 =
      .error "Se requieren permisos de Bluetooth para buscar dispositivos" ∧
    (findAndConnectMP4 env adapter s).2.2 = [] := by
  have hreq : requestBluetoothPermissions env s =
      (false, { s with
        permissionsGranted := false,
        error := some "Se requieren permisos de Bluetooth para continuar" }) := by
    simp [requestBluetoothPermissions, hos, Nat.not_lt.mpr hapi, hm, hpart]
  refine ⟨by simp [hreq], ?_, ?_, ?_, ?_, ?_, ?_⟩ <;>
    simp [pairDevice, connectToDevice, findAndConnectMP4, permissionGate,
      hperm, hreq]

/-- C4 witness: the partial-grant environment (scan and connect granted, fine
location denied) against the initial hook state. -/
theorem partial_grant_denies_gated_ops_witness :
    (requestBluetoothPermissions partialGrantEnv initialState).1 = false ∧
    (pairDevice partialGrantEnv bondedAdapter devMP4 initialState).1 =
      .error "Se requieren permisos de Bluetooth para emparejar" ∧
    (pairDevice partialGrantEnv bondedAdapter devMP4 initialState).2.2 = [] ∧
    (connectToDevice partialGrantEnv bondedAdapter devMP4 initialState).1 =
      .error "Se requieren permisos de Bluetooth para conectar" ∧
    (connectToDevice partialGrantEnv bondedAdapter devMP4 initialState).2.2
      = [] ∧
    (findAndConnectMP4 partialGrantEnv bondedAdapter initialState).1 =
      .error "Se requieren permisos de Bluetooth para buscar dispositivos" ∧
    (findAndConnectMP4 partialGrantEnv bondedAdapter initialState).2.2 = [] :=
  partial_grant_denies_gated_ops partialGrantEnv bondedAdapter initialState
    devMP4 true true false rfl (by decide) rfl rfl rfl

/-- C8 counterexample: a failing `findAndConnectMP4` run (no device found)
during which a `system` message ("Buscando dispositivo MP4...") WAS appended
to the previously empty log — refuting "no System message is appended on any
failing run". -/
theorem findAndConnect_failing_run_appends_cex :
    (∃ e, (findAndConnectMP4 grantedEnv emptyAdapter grantedState).1 =
      .error e) ∧
    (findAndConnectMP4 grantedEnv emptyAdapter grantedState).2.1.messages ≠
      grantedState.messages := by
  refine ⟨⟨"No se encontró ningún dispositivo MP4", rfl⟩, ?_⟩
  have h : (findAndConnectMP4 grantedEnv emptyAdapter grantedState).2.1.messages
      = [⟨.system, "Buscando dispositivo MP4...", grantedEnv.now⟩] := rfl
  rw [h]
  simp [grantedState, initialState]

/-- `requestBluetoothPermissions` never touches the message log. -/
theorem requestBluetoothPermissions_messages (env : Env) (s : BTState) :
    (requestBluetoothPermissions env s).2.messages = s.messages := by
  unfold requestBluetoothPermissions
  repeat' split
  all_goals try simp
  all_goals (split <;> simp)

/-- The permission gate never touches the message log. -/
theorem permissionGate_messages (env : Env) (m : String) (s : BTState) :
    (permissionGate env m s).2.messages = s.messages := by
  unfold permissionGate
  split
  · rcases hrq : requestBluetoothPermissions env s with ⟨g, s1⟩
    have h1 : s1.messages = s.messages := by
      have h := requestBluetoothPermissions_messages env s
      rw [hrq] at h
      exact h
    cases g <;> simp [h1]
  · simp

/-- A `connectToDevice` call that throws never appends to the message log
(the gate, the probe and the connect all fail without a `system` message). -/
theorem connectToDevice_error_messages (env : Env) (adapter : Adapter)
    (d : Device) (s : BTState) (e : String)
    (h : (connectToDevice env adapter d s).1 = .error e) :
    (connectToDevice env adapter d s).2.1.messages = s.messages := by
  rcases hpg : permissionGate env
      "Se requieren permisos de Bluetooth para conectar" s with ⟨rg, s1⟩
  have h1 : s1.messages = s.messages := by
    have hh := permissionGate_messages env
      "Se requieren permisos de Bluetooth para conectar" s
    rw [hpg] at hh
    exact hh
  cases rg with
  | error g => simp [connectToDevice, hpg, h1]
  | ok u =>
    rcases hic : adapter.isConnected d.id with ei | b
    · simp [connectToDevice, hpg, hic, h1]
    · cases b
      · rcases hc : adapter.connectToDevice d.id with ec | c
        · simp [connectToDevice, hpg, hic, hc, h1]
        · simp [connectToDevice, hpg, hic, hc] at h
      · simp [connectToDevice, hpg, hic] at h

/-- A `pairDevice` call that throws never appends to the message log. -/
theorem pairDevice_error_messages (env : Env) (adapter : Adapter)
    (d : Device) (s : BTState) (e : String)
    (h : (pairDevice env adapter d s).1 = .error e) :
    (pairDevice env adapter d s).2.1.messages = s.messages := by
  rcases hpg : permissionGate env
      "Se requieren permisos de Bluetooth para emparejar" s with ⟨rg, s1⟩
  have h1 : s1.messages = s.messages := by
    have hh := permissionGate_messages env
      "Se requieren permisos de Bluetooth para emparejar" s
    rw [hpg] at hh
    exact hh
  cases rg with
  | error g => simp [pairDevice, hpg, h1]
  | ok u =>
    rcases hp : adapter.pairDevice d.id with ep | p
    · simp [pairDevice, hpg, hp, h1]
    · simp [pairDevice, hpg, hp] at h

/-- A successful `pairDevice` call appends exactly its pair-success `system`
message. -/
theorem pairDevice_ok_messages (env : Env) (adapter : Adapter)
    (d : Device) (s : BTState) (p : Device)
    (h : (pairDevice env adapter d s).1 = .ok p) :
    (pairDevice env adapter d s).2.1.messages =
      s.messages ++ [⟨.system, "Emparejado con " ++ displayName d, env.now⟩] := by
  rcases hpg : permissionGate env
      "Se requieren permisos de Bluetooth para emparejar" s with ⟨rg, s1⟩
  have h1 : s1.messages = s.messages := by
    have hh := permissionGate_messages env
      "Se requieren permisos de Bluetooth para emparejar" s
    rw [hpg] at hh
    exact hh
  cases rg with
  | error g => simp [pairDevice, hpg] at h
  | ok u =>
    rcases hp : adapter.pairDevice d.id with ep | q
    · simp [pairDevice, hpg, hp] at h
    · simp [pairDevice, addMessage, hpg, hp, h1]

/-- Equation form of `connectToDevice_error_messages`, keyed on the full
result triple. -/
theorem connectToDevice_error_state (env : Env) (adapter : Adapter)
    (d : Device) (s : BTState) (e : String) (s' : BTState) (t : List Call)
    (h : connectToDevice env adapter d s = (.error e, s', t)) :
    s'.messages = s.messages := by
  have hh := connectToDevice_error_messages env adapter d s e (by rw [h])
  rw [h] at hh
  exact hh

/-- Equation form of `pairDevice_error_messages`, keyed on the full result
triple. -/
theorem pairDevice_error_state (env : Env) (adapter : Adapter)
    (d : Device) (s : BTState) (e : String) (s' : BTState) (t : List Call)
    (h : pairDevice env adapter d s = (.error e, s', t)) :
    s'.messages = s.messages := by
  have hh := pairDevice_error_messages env adapter d s e (by rw [h])
  rw [h] at hh
  exact hh

/-- Equation form of `pairDevice_ok_messages`, keyed on the full result
triple. -/
theorem pairDevice_ok_state (env : Env) (adapter : Adapter)
    (d : Device) (s : BTState) (p : Device) (s' : BTState) (t : List Call)
    (h : pairDevice env adapter d s = (.ok p, s', t)) :
    s'.messages =
      s.messages ++ [⟨.system, "Emparejado con " ++ displayName d, env.now⟩] := by
  have hh := pairDevice_ok_messages env adapter d s p (by rw [h])
  rw [h] at hh
  exact hh

/-- Every failing `findAndConnectMP4` run, over all environments, adapters
and starting states, leaves the log extended by exactly the progress prefix
of the sub-steps it passed: nothing, the searching message alone, the
searching and pairing-start messages, or those two plus the pair-success
message. -/
theorem findAndConnect_failure_messages (env : Env) (adapter : Adapter)
    (s : BTState) (e : String)
    (h : (findAndConnectMP4 env adapter s).1 = .error e) :
    (findAndConnectMP4 env adapter s).2.1.messages = s.messages ∨
    (findAndConnectMP4 env adapter s).2.1.messages =
      s.messages ++ [⟨.system, "Buscando dispositivo MP4...", env.now⟩] ∨
    (∃ d, (findAndConnectMP4 env adapter s).2.1.messages =
      s.messages ++ [⟨.system, "Buscando dispositivo MP4...", env.now⟩,
        ⟨.system, "Emparejando con " ++ displayName d ++ "...", env.now⟩]) ∨
    (∃ d, (findAndConnectMP4 env adapter s).2.1.messages =
      s.messages ++ [⟨.system, "Buscando dispositivo MP4...", env.now⟩,
        ⟨.system, "Emparejando con " ++ displayName d ++ "...", env.now⟩,
        ⟨.system, "Emparejado con " ++ displayName d, env.now⟩]) := by
  rcases hpg : permissionGate env
      "Se requieren permisos de Bluetooth para buscar dispositivos" s
      with ⟨rg, s1⟩
  have h1 : s1.messages = s.messages := by
    have hh := permissionGate_messages env
      "Se requieren permisos de Bluetooth para buscar dispositivos" s
    rw [hpg] at hh
    exact hh
  cases rg with
  | error g => left; simp [findAndConnectMP4, hpg, h1]
  | ok u =>
    rcases hb : adapter.getBondedDevices with eb | l
    · left; simp [findAndConnectMP4, hpg, hb, h1]
    · rcases hf : l.find? matchesMP4 with _ | d
      · rcases hen : adapter.requestBluetoothEnabled with ee | b
        · left; simp [findAndConnectMP4, hpg, hb, hf, hen, h1]
        · cases b
          · left; simp [findAndConnectMP4, hpg, hb, hf, hen, h1]
          · rcases hdi : adapter.startDiscovery with ed | L
            · right; left
              simp [findAndConnectMP4, addMessage, hpg, hb, hf, hen, hdi, h1]
            · rcases hF : L.find? matchesMP4 with _ | d
              · right; left
                simp [findAndConnectMP4, addMessage, hpg, hb, hf, hen, hdi,
                  hF, h1]
              · rcases hpa : pairDevice env adapter d
                    (addMessage .system
                      ("Emparejando con " ++ displayName d ++ "...") env.now
                      { (addMessage .system "Buscando dispositivo MP4..."
                          env.now
                          { s1 with isScanning := true, error := none }) with
                        mp4Device := some d }) with ⟨rp, s6, tp⟩
                have hpa' := hpa
                simp [addMessage] at hpa'
                cases rp with
                | error ep =>
                    right; right; left
                    refine ⟨d, ?_⟩
                    have hpm := pairDevice_error_state env adapter d _ ep s6
                      tp hpa
                    simp [addMessage] at hpm
                    simp [findAndConnectMP4, addMessage, hpg, hb, hf, hen,
                      hdi, hF]
                    rw [hpa']
                    simp [hpm, h1]
                | ok p =>
                    rcases hc : connectToDevice env adapter d s6
                        with ⟨rc, s7, tc⟩
                    have hpm := pairDevice_ok_state env adapter d _ p s6 tp hpa
                    simp [addMessage] at hpm
                    cases rc with
                    | error ec =>
                        right; right; right
                        refine ⟨d, ?_⟩
                        have hcm := connectToDevice_error_state env adapter d
                          s6 ec s7 tc hc
                        simp [findAndConnectMP4, addMessage, hpg, hb, hf, hen,
                          hdi, hF]
                        rw [hpa']
                        simp only [List.append_assoc, List.cons_append,
                          List.nil_append, List.singleton_append]
                        rw [hc]
                        simp [hcm, hpm, h1]
                    | ok c =>
                        simp [findAndConnectMP4, addMessage, hpg, hb, hf, hen,
                          hdi, hF] at h
                        rw [hpa'] at h
                        simp only [List.append_assoc, List.cons_append,
                          List.nil_append, List.singleton_append] at h
                        rw [hc] at h
                        simp at h
      · rcases hc : connectToDevice env adapter d
            { s1 with isScanning := true, error := none, mp4Device := some d }
            with ⟨rc, s4, tc⟩
        cases rc with
        | error ec =>
            left
            have hcm := connectToDevice_error_state env adapter d _ ec s4 tc hc
            simp at hcm
            simp [findAndConnectMP4, hpg, hb, hf]
            rw [hc]
            simp [hcm, h1]
        | ok c =>
            simp [findAndConnectMP4, hpg, hb, hf] at h
            rw [hc] at h
            simp at h

/-- C8 (amended): for every failing run of `findAndConnectMP4` — over all
environments, adapters and starting states — the Event Log gains exactly the
progress `system` messages of the sub-steps already passed: nothing, or the
searching message once the enable step succeeded, additionally the
"Emparejando..." message once a discovered target was recorded, additionally
the "Emparejado..." message once pairing succeeded; and the failure surfaces
to the caller as a rejected result carrying the original cause unmodified,
shown for all eleven failure points: permission-gate denial, bonded-query
error, enable error, enable declined, discovery error, no device found,
pairing error, and the probe/connect rejections of both the bonded and the
discovery paths. -/
theorem findAndConnect_failure_log_policy
    (genv env : Env) (ga a1 a2 a3 a4 a5 a6 a7 a8 a9 a10 : Adapter)
    (gs s : BTState) (gb1 gb2 gb3 : Bool)
    (l2 l3 l4 l5 l6 l7 l8 l9 l10 L5 L6 L9 L10 : List Device)
    (d6 d7 d8 d9 d10 p9 p10 : Device)
    (e1 e2 e4 e6 e7 e8 e9 e10 : String)
    (hgos : genv.osIsAndroid = true) (hgapi : 31 ≤ genv.apiLevel)
    (hgm : genv.requestMultiple = .ok (gb1, gb2, gb3))
    (hgpart : (gb1 && gb2 && gb3) = false)
    (hgperm : gs.permissionsGranted = false)
    (hperm : s.permissionsGranted = true)
    (h1 : a1.getBondedDevices = .error e1)
    (h2b : a2.getBondedDevices = .ok l2) (h2n : l2.find? matchesMP4 = none)
    (h2e : a2.requestBluetoothEnabled = .error e2)
    (h3b : a3.getBondedDevices = .ok l3) (h3n : l3.find? matchesMP4 = none)
    (h3e : a3.requestBluetoothEnabled = .ok false)
    (h4b : a4.getBondedDevices = .ok l4) (h4n : l4.find? matchesMP4 = none)
    (h4e : a4.requestBluetoothEnabled = .ok true)
    (h4d : a4.startDiscovery = .error e4)
    (h5b : a5.getBondedDevices = .ok l5) (h5n : l5.find? matchesMP4 = none)
    (h5e : a5.requestBluetoothEnabled = .ok true)
    (h5d : a5.startDiscovery = .ok L5) (h5N : L5.find? matchesMP4 = none)
    (h6b : a6.getBondedDevices = .ok l6) (h6n : l6.find? matchesMP4 = none)
    (h6e : a6.requestBluetoothEnabled = .ok true)
    (h6d : a6.startDiscovery = .ok L6) (h6N : L6.find? matchesMP4 = some d6)
    (h6p : a6.pairDevice d6.id = .error e6)
    (h7b : a7.getBondedDevices = .ok l7) (h7f : l7.find? matchesMP4 = some d7)
    (h7i : a7.isConnected d7.id = .ok false)
    (h7c : a7.connectToDevice d7.id = .error e7)
    (h8b : a8.getBondedDevices = .ok l8) (h8f : l8.find? matchesMP4 = some d8)
    (h8i : a8.isConnected d8.id = .error e8)
    (h9b : a9.getBondedDevices = .ok l9) (h9n : l9.find? matchesMP4 = none)
    (h9e : a9.requestBluetoothEnabled = .ok true)
    (h9d : a9.startDiscovery = .ok L9) (h9N : L9.find? matchesMP4 = some d9)
    (h9p : a9.pairDevice d9.id = .ok p9)
    (h9i : a9.isConnected d9.id = .error e9)
    (h10b : a10.getBondedDevices = .ok l10)
    (h10n : l10.find? matchesMP4 = none)
    (h10e : a10.requestBluetoothEnabled = .ok true)
    (h10d : a10.startDiscovery = .ok L10)
    (h10N : L10.find? matchesMP4 = some d10)
    (h10p : a10.pairDevice d10.id = .ok p10)
    (h10i : a10.isConnected d10.id = .ok false)
    (h10c : a10.connectToDevice d10.id = .error e10) :
    (∀ env' adapter' s' e,
      (findAndConnectMP4 env' adapter' s').1 = .error e →
        ((findAndConnectMP4 env' adapter' s').2.1.messages = s'.messages ∨
         (findAndConnectMP4 env' adapter' s').2.1.messages =
           s'.messages ++
             [⟨.system, "Buscando dispositivo MP4...", env'.now⟩] ∨
         (∃ d, (findAndConnectMP4 env' adapter' s').2.1.messages =
           s'.messages ++
             [⟨.system, "Buscando dispositivo MP4...", env'.now⟩,
              ⟨.system, "Emparejando con " ++ displayName d ++ "...",
                env'.now⟩]) ∨
         (∃ d, (findAndConnectMP4 env' adapter' s').2.1.messages =
           s'.messages ++
             [⟨.system, "Buscando dispositivo MP4...", env'.now⟩,
              ⟨.system, "Emparejando con " ++ displayName d ++ "...",
                env'.now⟩,
              ⟨.system, "Emparejado con " ++ displayName d, env'.now⟩]))) ∧
    ((findAndConnectMP4 genv ga gs).1 =
        .error "Se requieren permisos de Bluetooth para buscar dispositivos" ∧
      (findAndConnectMP4 genv ga gs).2.1.messages = gs.messages) ∧
    ((findAndConnectMP4 env a1 s).1 = .error e1 ∧
      (findAndConnectMP4 env a1 s).2.1.messages = s.messages) ∧
    ((findAndConnectMP4 env a2 s).1 = .error e2 ∧
      (findAndConnectMP4 env a2 s).2.1.messages = s.messages) ∧
    ((findAndConnectMP4 env a3 s).1 = .error "Bluetooth no está habilitado" ∧
      (findAndConnectMP4 env a3 s).2.1.messages = s.messages) ∧
    ((findAndConnectMP4 env a4 s).1 = .error e4 ∧
      (findAndConnectMP4 env a4 s).2.1.messages = s.messages ++
        [⟨.system, "Buscando dispositivo MP4...", env.now⟩]) ∧
    ((findAndConnectMP4 env a5 s).1 =
        .error "No se encontró ningún dispositivo MP4" ∧
      (findAndConnectMP4 env a5 s).2.1.messages = s.messages ++
        [⟨.system, "Buscando dispositivo MP4...", env.now⟩]) ∧
    ((findAndConnectMP4 env a6 s).1 = .error e6 ∧
      (findAndConnectMP4 env a6 s).2.1.messages = s.messages ++
        [⟨.system, "Buscando dispositivo MP4...", env.now⟩,
         ⟨.system, "Emparejando con " ++ displayName d6 ++ "...", env.now⟩]) ∧
    ((findAndConnectMP4 env a7 s).1 = .error e7 ∧
      (findAndConnectMP4 env a7 s).2.1.messages = s.messages) ∧
    ((findAndConnectMP4 env a8 s).1 = .error e8 ∧
      (findAndConnectMP4 env a8 s).2.1.messages = s.messages) ∧
    ((findAndConnectMP4 env a9 s).1 = .error e9 ∧
      (findAndConnectMP4 env a9 s).2.1.messages = s.messages ++
        [⟨.system, "Buscando dispositivo MP4...", env.now⟩,
         ⟨.system, "Emparejando con " ++ displayName d9 ++ "...", env.now⟩,
         ⟨.system, "Emparejado con " ++ displayName d9, env.now⟩]) ∧
    ((findAndConnectMP4 env a10 s).1 = .error e10 ∧
      (findAndConnectMP4 env a10 s).2.1.messages = s.messages ++
        [⟨.system, "Buscando dispositivo MP4...", env.now⟩,
         ⟨.system, "Emparejando con " ++ displayName d10 ++ "...", env.now⟩,
         ⟨.system, "Emparejado con " ++ displayName d10, env.now⟩]) := by
  refine ⟨?_, ?_, ?_, ?_, ?_, ?_, ?_, ?_, ?_, ?_, ?_, ?_⟩
  · exact fun env' adapter' s' e h =>
      findAndConnect_failure_messages env' adapter' s' e h
  · have hreq : requestBluetoothPermissions genv gs =
        (false, { gs with
          permissionsGranted := false,
          error := some "Se requieren permisos de Bluetooth para continuar" }) := by
      simp [requestBluetoothPermissions, hgos, Nat.not_lt.mpr hgapi, hgm,
        hgpart]
    constructor <;> simp [findAndConnectMP4, permissionGate, hgperm, hreq]
  · constructor <;> simp [findAndConnectMP4, permissionGate, hperm, h1]
  · constructor <;>
      simp [findAndConnectMP4, permissionGate, hperm, h2b, h2n, h2e]
  · constructor <;>
      simp [findAndConnectMP4, permissionGate, hperm, h3b, h3n, h3e]
  · constructor <;>
      simp [findAndConnectMP4, permissionGate, addMessage, hperm, h4b, h4n,
        h4e, h4d]
  · constructor <;>
      simp [findAndConnectMP4, permissionGate, addMessage, hperm, h5b, h5n,
        h5e, h5d, h5N]
  · constructor <;>
      simp [findAndConnectMP4, pairDevice, permissionGate, addMessage, hperm,
        h6b, h6n, h6e, h6d, h6N, h6p]
  · constructor <;>
      simp [findAndConnectMP4, connectToDevice, permissionGate, addMessage,
        hperm, h7b, h7f, h7i, h7c]
  · constructor <;>
      simp [findAndConnectMP4, connectToDevice, permissionGate, addMessage,
        hperm, h8b, h8f, h8i]
  · constructor <;>
      simp [findAndConnectMP4, pairDevice, connectToDevice, permissionGate,
        addMessage, hperm, h9b, h9n, h9e, h9d, h9N, h9p, h9i]
  · constructor <;>
      simp [findAndConnectMP4, pairDevice, connectToDevice, permissionGate,
        addMessage, hperm, h10b, h10n, h10e, h10d, h10N, h10p, h10i, h10c]

/-- C8 witness: the permission-gate denial and the ten adapter failure
scenarios instantiated with the concrete fixture adapters. -/
theorem findAndConnect_failure_log_policy_witness :
    (∀ env' adapter' s' e,
      (findAndConnectMP4 env' adapter' s').1 = .error e →
        ((findAndConnectMP4 env' adapter' s').2.1.messages = s'.messages ∨
         (findAndConnectMP4 env' adapter' s').2.1.messages =
           s'.messages ++
             [⟨.system, "Buscando dispositivo MP4...", env'.now⟩] ∨
         (∃ d, (findAndConnectMP4 env' adapter' s').2.1.messages =
           s'.messages ++
             [⟨.system, "Buscando dispositivo MP4...", env'.now⟩,
              ⟨.system, "Emparejando con " ++ displayName d ++ "...",
                env'.now⟩]) ∨
         (∃ d, (findAndConnectMP4 env' adapter' s').2.1.messages =
           s'.messages ++
             [⟨.system, "Buscando dispositivo MP4...", env'.now⟩,
              ⟨.system, "Emparejando con " ++ displayName d ++ "...",
                env'.now⟩,
              ⟨.system, "Emparejado con " ++ displayName d, env'.now⟩]))) ∧
    ((findAndConnectMP4 partialGrantEnv bondedAdapter initialState).1 =
        .error "Se requieren permisos de Bluetooth para buscar dispositivos" ∧
      (findAndConnectMP4 partialGrantEnv bondedAdapter
        initialState).2.1.messages = initialState.messages) ∧
    ((findAndConnectMP4 grantedEnv bondedErrAdapter grantedState).1 =
        .error "E1" ∧
      (findAndConnectMP4 grantedEnv bondedErrAdapter
        grantedState).2.1.messages = grantedState.messages) ∧
    ((findAndConnectMP4 grantedEnv enableErrAdapter grantedState).1 =
        .error "E2" ∧
      (findAndConnectMP4 grantedEnv enableErrAdapter
        grantedState).2.1.messages = grantedState.messages) ∧
    ((findAndConnectMP4 grantedEnv enableDeclinedAdapter grantedState).1 =
        .error "Bluetooth no está habilitado" ∧
      (findAndConnectMP4 grantedEnv enableDeclinedAdapter
        grantedState).2.1.messages = grantedState.messages) ∧
    ((findAndConnectMP4 grantedEnv discoveryErrAdapter grantedState).1 =
        .error "E4" ∧
      (findAndConnectMP4 grantedEnv discoveryErrAdapter
        grantedState).2.1.messages = grantedState.messages ++
          [⟨.system, "Buscando dispositivo MP4...", grantedEnv.now⟩]) ∧
    ((findAndConnectMP4 grantedEnv emptyAdapter grantedState).1 =
        .error "No se encontró ningún dispositivo MP4" ∧
      (findAndConnectMP4 grantedEnv emptyAdapter grantedState).2.1.messages =
        grantedState.messages ++
          [⟨.system, "Buscando dispositivo MP4...", grantedEnv.now⟩]) ∧
    ((findAndConnectMP4 grantedEnv pairErrAdapter grantedState).1 =
        .error "E6" ∧
      (findAndConnectMP4 grantedEnv pairErrAdapter grantedState).2.1.messages
        = grantedState.messages ++
          [⟨.system, "Buscando dispositivo MP4...", grantedEnv.now⟩,
           ⟨.system, "Emparejando con " ++ displayName devMP4X ++ "...",
             grantedEnv.now⟩]) ∧
    ((findAndConnectMP4 grantedEnv connectErrAdapter grantedState).1 =
        .error "E7" ∧
      (findAndConnectMP4 grantedEnv connectErrAdapter
        grantedState).2.1.messages = grantedState.messages) ∧
    ((findAndConnectMP4 grantedEnv probeErrAdapter grantedState).1 =
        .error "E8" ∧
      (findAndConnectMP4 grantedEnv probeErrAdapter
        grantedState).2.1.messages = grantedState.messages) ∧
    ((findAndConnectMP4 grantedEnv pairedProbeErrAdapter grantedState).1 =
        .error "E9" ∧
      (findAndConnectMP4 grantedEnv pairedProbeErrAdapter
        grantedState).2.1.messages = grantedState.messages ++
          [⟨.system, "Buscando dispositivo MP4...", grantedEnv.now⟩,
           ⟨.system, "Emparejando con " ++ displayName devMP4X ++ "...",
             grantedEnv.now⟩,
           ⟨.system, "Emparejado con " ++ displayName devMP4X,
             grantedEnv.now⟩]) ∧
    ((findAndConnectMP4 grantedEnv pairedConnectErrAdapter grantedState).1 =
        .error "E10" ∧
      (findAndConnectMP4 grantedEnv pairedConnectErrAdapter
        grantedState).2.1.messages = grantedState.messages ++
          [⟨.system, "Buscando dispositivo MP4...", grantedEnv.now⟩,
           ⟨.system, "Emparejando con " ++ displayName devMP4X ++ "...",
             grantedEnv.now⟩,
           ⟨.system, "Emparejado con " ++ displayName devMP4X,
             grantedEnv.now⟩]) :=
  findAndConnect_failure_log_policy partialGrantEnv grantedEnv bondedAdapter
    bondedErrAdapter enableErrAdapter enableDeclinedAdapter
    discoveryErrAdapter emptyAdapter pairErrAdapter connectErrAdapter
    probeErrAdapter pairedProbeErrAdapter pairedConnectErrAdapter
    initialState grantedState true true false
    [devOther] [devOther] [devOther] [devOther] [devOther]
    [devOther, devMP4] [devOther, devMP4] [devOther] [devOther]
    [] [devMP4X] [devMP4X] [devMP4X]
    devMP4X devMP4 devMP4 devMP4X devMP4X devMP4X devMP4X
    "E1" "E2" "E4" "E6" "E7" "E8" "E9" "E10"
    rfl (by decide) rfl rfl rfl rfl rfl rfl rfl rfl rfl rfl rfl rfl rfl rfl
    rfl rfl rfl rfl rfl rfl rfl rfl rfl rfl rfl rfl rfl rfl rfl rfl rfl rfl
    rfl rfl rfl rfl rfl rfl rfl rfl rfl rfl rfl rfl rfl rfl rfl rfl

/-- C9 counterexample: with one message in the log, the claimed equation
"length before `clear()` plus zero equals length immediately after `clear()`"
reads `1 + 0 = 0`, which is false — `clearMessages` empties the log. -/
theorem log_length_clear_cex :
    ¬ ((addMessage .system "a" "t" initialState).messages.length + 0 =
       (clearMessages (addMessage .system "a" "t" initialState)).messages.length) := by
  simp [addMessage, clearMessages, initialState]

/-- C9 (amended): every sequence of `addMessage` calls yields exactly those
messages appended in call order after the existing log (append never fails),
and immediately after `clearMessages` the log has length zero — it is emptied
unconditionally. -/
theorem event_log_append_order (s : BTState)
    (appends : List (MessageType × String × String)) :
    (appends.foldl (fun st x => addMessage x.1 x.2.1 x.2.2 st) s).messages =
      s.messages ++ appends.map (fun x => ⟨x.1, x.2.1, x.2.2⟩) ∧
    (clearMessages s).messages.length = 0 := by
  constructor
  · induction appends generalizing s with
    | nil => simp
    | cons hd tl ih =>
        rw [List.foldl_cons, ih]
        simp [addMessage]
  · simp [clearMessages]
